import Mathlib

/-!
Verification of the JW8507 attenuator control program: a shallow embedding of
the binary frame codec and device-session operations (`JW8507.py`), the TCP
command router (`main.py`, `MainWindow._handle_tcp_request` and its helpers),
and the per-connection message handler (`TCPServer.py`), with theorems settling
the specified properties of each.

Modelling conventions:
* Python `bytes` values are `List Nat` (every element produced is < 256).
* Python unbounded integers are `Int` (or `Nat` where the source only ever
  holds a non-negative value there); Python floats are modelled as exact
  rationals `ℚ` — every literal exercised by the properties (0.0, 60.0,
  -0.01, 60.01, ...) compares against the bounds 0 and 60 identically in
  binary floating point and in `ℚ`.
* Python exceptions that can escape a modelled function are `Except PyErr`.
* The serial port is modelled by its two observable effects: the frame
  written (returned as a component of each operation's result) and the bytes
  that the subsequent fixed-size `read` returned (passed in as `resp`; the
  source only assumes `len(resp)` is at most the requested size, and every
  theorem quantifies over arbitrary byte lists).
-/

/-- Python exceptions that can escape the modelled functions. -/
inductive PyErr where
  | keyError (key : String)
  | typeError
  | attributeError
  | overflowError
  deriving DecidableEq

/-- Rendering of Python str(e) as used by the TCP handler when an exception
    escapes the router. Python renders KeyError as the missing key in quotes;
    the quotes are omitted here, keeping just the key text. -/
def pyErrMessage : PyErr → String
  | .keyError key => key
  | .typeError => "TypeError"
  | .attributeError => "AttributeError"
  | .overflowError => "OverflowError"

/-- JSON values as produced by Python json.loads. Python distinguishes int
    and float results; objects become dicts, modelled as association lists
    whose lookup takes the first occurrence (json.loads keys are unique). -/
inductive Json where
  | null
  | bool (b : Bool)
  | int (n : Int)
  | float (q : ℚ)
  | str (s : String)
  | arr (elements : List Json)
  | obj (fields : List (String × Json))

namespace Json

/-- Python dict.get(key, default). Any non-dict receiver has no .get
    attribute, so the call raises AttributeError. -/
def getD (j : Json) (key : String) (default : Json) : Except PyErr Json :=
  match j with
  | .obj fields => .ok ((fields.lookup key).getD default)
  | _ => .error .attributeError

/-- Python subscription j[key]: KeyError when the key is missing from a
    dict, TypeError when the receiver is not a dict. -/
def item (j : Json) (key : String) : Except PyErr Json :=
  match j with
  | .obj fields =>
    match fields.lookup key with
    | some v => .ok v
    | none => .error (.keyError key)
  | _ => .error .typeError

/-- Numeric value of a JSON scalar as seen by Python comparison operators
    (bool is an int subtype in Python); TypeError for non-numeric operands. -/
def toQ (j : Json) : Except PyErr ℚ :=
  match j with
  | .int n => .ok (n : ℚ)
  | .float q => .ok q
  | .bool b => .ok (if b then 1 else 0)
  | _ => .error .typeError

/-- Integer value required where the source applies bitwise & to build the
    frame address byte; TypeError for anything that is not a Python int. -/
def toZ (j : Json) : Except PyErr Int :=
  match j with
  | .int n => .ok n
  | .bool b => .ok (if b then 1 else 0)
  | _ => .error .typeError

/-- Python == between a JSON-decoded value and a string literal: true exactly
    for the equal string, false (never an error) for any other value. -/
def eqStr (j : Json) (s : String) : Bool :=
  match j with
  | .str t => t == s
  | _ => false

end Json

/-- Python == between a JSON-decoded value and an int from the wavelength
    table: numbers compare by value (bool counts as 0 or 1), anything else is
    simply unequal — never an error. -/
def pyNumEq (j : Json) (w : Nat) : Bool :=
  match j with
  | .int n => n == (w : Int)
  | .float q => q == (w : ℚ)
  | .bool b => (if b then (1 : Int) else 0) == (w : Int)
  | _ => false

/-- Python list.index under Python equality: the first matching index, or
    none where the source catches the ValueError. Also the semantics of the
    membership test `in`, via `Option.isSome`. -/
def pyIndexOf (table : List Nat) (j : Json) : Option Nat :=
  match table with
  | [] => none
  | w :: ws => if pyNumEq j w then some 0 else (pyIndexOf ws j).map (· + 1)

/-- Python int() applied to a (rational-modelled) float: truncation toward
    zero, which on the reduced fraction is the truncating division of the
    numerator by the denominator. -/
def pyTrunc (q : ℚ) : Int :=
  Int.tdiv q.num (q.den : Int)

/-- Python v.to_bytes(2, byteorder="little") for an unsigned two-byte field:
    OverflowError outside [0, 65535], otherwise low byte first. -/
def toBytesLE2 (v : Int) : Except PyErr (List Nat) :=
  if v < 0 ∨ 65536 ≤ v then .error .overflowError
  else .ok [v.toNat % 256, v.toNat / 256 % 256]

/-- Python index.to_bytes(1, byteorder="little"): a single byte, OverflowError
    from 256 upward. -/
def toBytes1 (v : Nat) : Except PyErr (List Nat) :=
  if 256 ≤ v then .error .overflowError else .ok [v]

/-- Python int.from_bytes(bs, byteorder="big") on a list of bytes. -/
def int_from_bytes_be (bs : List Nat) : Nat :=
  bs.foldl (fun a b => 256 * a + b) 0

/-- Big-endian 16-bit command field at bytes 3..4 of a response — the field
    the specification says is compared against the request command + 1. -/
def commandFieldBE (resp : List Nat) : Nat :=
  256 * resp.getD 3 0 + resp.getD 4 0

/-- Outbound result triple [IsSuccessful, Value, ErrorMessage] as built by the
    router and serialized by TCPServer.make_pack. -/
structure Envelope where
  isSuccessful : Bool
  value : String
  errorMessage : String
  deriving DecidableEq

namespace JW8507

/-- Frame header byte 0x7B (JW8507.HEADER). -/
def HEADER : Nat := 0x7B

/-- Frame footer byte 0x7D (JW8507.FOOTER). -/
def FOOTER : Nat := 0x7D

/-- Built-in default wavelength table (class attribute JW8507.waveLength_list),
    replaced after a successful device read. -/
def default_waveLength_list : List Nat := [1310, 1490, 1540, 1550, 1563, 1625]

/-- Checksum of JW8507.calculate_checksum: `(~total + 1) & 0xFF` with
    `total = sum(data)`. On Python unbounded integers `~total + 1 = -total`,
    and `& 0xFF` of a possibly negative integer is the non-negative remainder
    modulo 256. -/
def calculate_checksum (data : List Nat) : Nat :=
  ((-(data.sum : Int)) % 256).toNat

/-- Frame built by make_command before checksum and footer are appended (the
    local variable `frame` in the source): header, address & 0xFF,
    length & 0xFF, command high byte, command low byte, then the data bytes,
    where `length = 5 + len(data)`. -/
def frame_body (address : Int) (command : Nat) (data : List Nat) : List Nat :=
  [HEADER, (address % 256).toNat, (5 + data.length) % 256,
   command / 256 % 256, command % 256] ++ data

/-- Frame of JW8507.make_command: body, checksum of the body, footer. Note
    that the source performs no length check on `data` — its docstring
    promises a ValueError for more than 200 bytes, but no such check exists
    in the function body. -/
def make_command (address : Int) (command : Nat) (data : List Nat) : List Nat :=
  frame_body address command data ++
    [calculate_checksum (frame_body address command data), FOOTER]

/-- Response-acceptance test repeated verbatim by every device operation in
    the source: accepted iff `len(response) >= minLen` and
    `int.from_bytes(response[3:5], byteorder="big") == command + 1`. -/
def respMatches (resp : List Nat) (minLen command : Nat) : Bool :=
  decide (minLen ≤ resp.length) &&
    decide (int_from_bytes_be ((resp.drop 3).take 2) = command + 1)

/-- Operation JW8507.read_version: writes the frame for command 0x0003,
    expects a 10-byte response, and on a match returns the three version
    bytes response[5..7]. Result: (frame written, success flag, payload —
    none models the empty dict returned on failure). -/
def read_version (address : Int) (resp : List Nat) :
    List Nat × Bool × Option (Nat × Nat × Nat) :=
  (make_command address 0x0003 [],
   respMatches resp 10 0x0003,
   if respMatches resp 10 0x0003 then
     some (resp.getD 5 0, resp.getD 6 0, resp.getD 7 0)
   else none)

/-- Operation JW8507.set_attenuation: encodes int(attenuation * 100) as an
    unsigned little-endian two-byte payload (the OverflowError raised for a
    count outside [0, 65535] escapes the operation), writes command 0x143C,
    and reports whether the 7-byte response matches. Result:
    (frame written, success flag). -/
def set_attenuation (address : Int) (attenuation : ℚ) (resp : List Nat) :
    Except PyErr (List Nat × Bool) := do
  let data ← toBytesLE2 (pyTrunc (attenuation * 100))
  .ok (make_command address 0x143C data, respMatches resp 7 0x143C)

/-- Operation JW8507.set_waveLength: looks the wavelength up in the table
    (returning False with no frame written when absent — the source catches
    the ValueError of list.index), then writes command 0x143A with the
    one-byte table index as data and checks the 7-byte response. -/
def set_waveLength (table : List Nat) (address : Int) (waveLength : Json)
    (resp : List Nat) : Except PyErr (Option (List Nat) × Bool) :=
  match pyIndexOf table waveLength with
  | none => .ok (none, false)
  | some index => do
    let data ← toBytes1 index
    .ok (some (make_command address 0x143A data), respMatches resp 7 0x143A)

/-- Operation JW8507.set_CloseReset: data is FF FF for "Close" and 00 00 for
    "Reset" (any other control string raises KeyError from the dict lookup),
    written with command 0x1434. -/
def set_CloseReset (address : Int) (ctrl : String) (resp : List Nat) :
    Except PyErr (List Nat × Bool) :=
  if ctrl = "Close" then
    .ok (make_command address 0x1434 [0xFF, 0xFF], respMatches resp 7 0x1434)
  else if ctrl = "Reset" then
    .ok (make_command address 0x1434 [0x00, 0x00], respMatches resp 7 0x1434)
  else .error (.keyError ctrl)

end JW8507

/-- Ambient state read by the router: the GUI version string, the configured
    channel count, the current wavelength table, the bytes returned by the
    serial read of the single device exchange a request performs, and the
    outcome of the bounded wait for the cross-thread ConnectDevice result —
    some r when the main thread completed within the timeout, none when the
    wait timed out. -/
structure RouterEnv where
  version : String
  channel_count : Int
  waveLength_list : List Nat
  resp : List Nat
  connectWait : Option Envelope

namespace MainWindow

/-- Timeout in seconds of the router wait on the ConnectDevice completion
    event, the literal 10.0 in self._tcp_result_event.wait of the source. -/
def TCP_RESULT_WAIT_SECONDS : ℚ := 10

/-- Router helper MainWindow._set_attenuation: channel bound check, then
    attenuation bound check, then the device call. The first component of a
    normal result records the frame written to the serial port (none when no
    frame was written). -/
def set_attenuation (env : RouterEnv) (CH attenuation : Json) :
    Except PyErr (Option (List Nat) × Envelope) := do
  let ch ← CH.toQ
  if ch < 1 ∨ (env.channel_count : ℚ) < ch then
    .ok (none, ⟨false, "", "Out of range"⟩)
  else do
    let a ← attenuation.toQ
    if a < 0 ∨ 60 < a then
      .ok (none, ⟨false, "", "Out of range"⟩)
    else do
      let addr ← CH.toZ
      let r ← JW8507.set_attenuation addr a env.resp
      if r.2 then .ok (some r.1, ⟨true, "", "Attenuation set successfully"⟩)
      else .ok (some r.1, ⟨false, "", "Attenuation set failed"⟩)

/-- Router helper MainWindow._set_wavelength: channel bound check, membership
    check of the wavelength in the current table under Python ==, then the
    device call. -/
def set_wavelength (env : RouterEnv) (CH wavelength : Json) :
    Except PyErr (Option (List Nat) × Envelope) := do
  let ch ← CH.toQ
  if ch < 1 ∨ (env.channel_count : ℚ) < ch then
    .ok (none, ⟨false, "", "Out of range"⟩)
  else if !(env.waveLength_list.any fun w => pyNumEq wavelength w) then
    .ok (none, ⟨false, "", "Wavelength not in list"⟩)
  else do
    let addr ← CH.toZ
    let r ← JW8507.set_waveLength env.waveLength_list addr wavelength env.resp
    if r.2 then .ok (r.1, ⟨true, "", "Wavelength set successfully"⟩)
    else .ok (r.1, ⟨false, "", "Wavelength set failed"⟩)

/-- Router helper MainWindow._set_close_reset: channel bound check, control
    string check against Close and Reset under Python ==, then the device
    call. -/
def set_close_reset (env : RouterEnv) (CH ctrl : Json) :
    Except PyErr (Option (List Nat) × Envelope) := do
  let ch ← CH.toQ
  if ch < 1 ∨ (env.channel_count : ℚ) < ch then
    .ok (none, ⟨false, "", "Out of range"⟩)
  else
    match ctrl with
    | .str s =>
      if s = "Close" ∨ s = "Reset" then do
        let addr ← CH.toZ
        let r ← JW8507.set_CloseReset addr s env.resp
        if r.2 then .ok (some r.1, ⟨true, "", "Close/Reset set successfully"⟩)
        else .ok (some r.1, ⟨false, "", "Close/Reset set failed"⟩)
      else .ok (none, ⟨false, "", "Invalid control instruction"⟩)
    | _ => .ok (none, ⟨false, "", "Invalid control instruction"⟩)

/-- Router MainWindow._handle_tcp_request. The request argument is the
    outcome of json.loads on the inbound message: none when parsing raised
    (the only exception the source catches), some value otherwise. The first
    result component records the frame a forwarded device command wrote to
    the serial port. The try/except of the source covers only json.loads, so
    a KeyError from a parameter lookup, an AttributeError from .get on a
    non-dict, or a TypeError from a comparison propagates out as an error. -/
def handle_tcp_request (env : RouterEnv) (request : Option Json) :
    Except PyErr (Option (List Nat) × Envelope) :=
  match request with
  | none => .ok (none, ⟨false, "", "Invalid JSON command"⟩)
  | some cmd => do
    let opcode ← cmd.getD "opcode" (.str "")
    if opcode.eqStr "check" then
      .ok (none, ⟨true, env.version, ""⟩)
    else if opcode.eqStr "SetWavelength" then do
      let p ← cmd.item "parameter"
      let ch ← p.item "CH"
      let wl ← p.item "Wavelength"
      set_wavelength env ch wl
    else if opcode.eqStr "SetAttenuation" then do
      let p ← cmd.item "parameter"
      let ch ← p.item "CH"
      let a ← p.item "Attenuation"
      set_attenuation env ch a
    else if opcode.eqStr "SetCloseReset" then do
      let p ← cmd.item "parameter"
      let ch ← p.item "CH"
      let s ← p.item "Set"
      set_close_reset env ch s
    else if opcode.eqStr "ConnectDevice" then
      .ok (none, env.connectWait.getD ⟨false, "", "Command execution timeout"⟩)
    else .ok (none, ⟨false, "", "Unknown command"⟩)

/-- State of the cross-thread result slots: _tcp_result_container (holding
    its "result" entry) and whether _tcp_result_event is still present. The
    router sets both to None after its wait times out. -/
structure TcpSlotState where
  container : Option (Option Envelope)
  eventPresent : Bool

/-- Main-thread slot handler MainWindow._handle_tcp_connect_in_main_thread:
    always performs the queued connect work — there is no cancellation check
    anywhere — then stores the result only if the container is still present
    and signals the event only if it is still present. Result: (connect work
    executed, updated slots, event signalled). -/
def handle_tcp_connect_in_main_thread (connectResult : Envelope)
    (s : TcpSlotState) : Bool × TcpSlotState × Bool :=
  (true, ⟨s.container.map fun _ => some connectResult, s.eventPresent⟩,
   s.eventPresent)

end MainWindow

namespace TCPServer

/-- Per-message behaviour of TCPServer.handle_client_connection: a normal
    router result is sent back as the envelope; an exception escaping the
    router is caught by the enclosing except block, answered with a failure
    envelope carrying str(e), after which the finally block closes the
    connection (second component: connection torn down by this message). -/
def handle_message (env : RouterEnv) (request : Option Json) :
    Envelope × Bool :=
  match MainWindow.handle_tcp_request env request with
  | .ok (_, e) => (e, false)
  | .error e => (⟨false, "", pyErrMessage e⟩, true)

end TCPServer

/-- Concrete environment used by witnesses: default-config channel count 2,
    the built-in wavelength table, a serial read that returned nothing, and a
    ConnectDevice wait that timed out. -/
def env0 : RouterEnv :=
  ⟨"V1.0", 2, JW8507.default_waveLength_list, [], none⟩

/-- Value of pyTrunc on an integer-valued rational. -/
theorem pyTrunc_intCast (n : Int) : pyTrunc ((n : ℚ)) = n := by
  rw [pyTrunc, Rat.num_intCast, Rat.den_intCast]
  simp

/-- On non-negative rationals, Python truncation agrees with the floor. -/
theorem pyTrunc_eq_floor (q : ℚ) (h : 0 ≤ q) : pyTrunc q = Int.floor q := by
  rw [pyTrunc, Rat.floor_def]
  exact Int.tdiv_eq_ediv (Rat.num_nonneg.mpr h) (Int.ofNat_nonneg _)

/-- Hundredths count of an attenuation within the validated range [0, 60]:
    non-negative and at most 6000, hence encodable in two unsigned bytes. -/
theorem pyTrunc_att_bounds (q : ℚ) (h0 : 0 ≤ q) (h1 : q ≤ 60) :
    0 ≤ pyTrunc (q * 100) ∧ pyTrunc (q * 100) ≤ 6000 := by
  have hq : (0 : ℚ) ≤ q * 100 := by positivity
  rw [pyTrunc_eq_floor _ hq]
  constructor
  · exact Int.floor_nonneg.mpr hq
  · calc Int.floor (q * 100) ≤ Int.floor ((6000 : Int) : ℚ) :=
        Int.floor_mono (by push_cast; linarith)
    _ = 6000 := Int.floor_intCast 6000

/-- Length of the pre-checksum frame body. -/
theorem frame_body_length (address : Int) (command : Nat) (data : List Nat) :
    (JW8507.frame_body address command data).length = 5 + data.length := by
  simp [JW8507.frame_body]; omega

/-- Claim C2 (status: code_bug evidence). make_command performs no length
    check: on 201 bytes of data — where the claim, the specification and the
    docstring of make_command itself demand a DataTooLong or ValueError
    failure — it returns a complete 208-byte frame whose length byte is 206. -/
theorem make_command_oversize_returns_frame :
    (JW8507.make_command 1 3 (List.replicate 201 0)).length = 208 ∧
    (JW8507.make_command 1 3 (List.replicate 201 0)).getD 2 0 = 206 := by
  have hb := frame_body_length 1 3 (List.replicate 201 0)
  rw [List.length_replicate] at hb
  constructor
  · rw [JW8507.make_command, List.length_append, hb]
    rfl
  · rw [JW8507.make_command, List.getD_append _ _ _ _ (by rw [hb]; omega),
      JW8507.frame_body]
    rw [List.cons_append, List.cons_append, List.cons_append,
      List.getD_cons_succ, List.getD_cons_succ, List.getD_cons_zero,
      List.length_replicate]

/-- Claim C1. For every address byte, 16-bit command and data of at most 200
    bytes, the checksum byte of the frame produced by make_command (the byte
    at offset 5 + len(data)) equals calculate_checksum of the bytes from the
    header through the last data byte, and the sum of all bytes from the
    header through the checksum byte is 0 modulo 256. -/
theorem make_command_checksum_ok (address : Int) (command : Nat)
    (data : List Nat) (h1 : 0 ≤ address) (h2 : address ≤ 255)
    (h3 : command ≤ 65535) (h4 : data.length ≤ 200) :
    (JW8507.make_command address command data).getD (5 + data.length) 0 =
      JW8507.calculate_checksum
        ((JW8507.make_command address command data).take (5 + data.length)) ∧
    ((JW8507.make_command address command data).take (6 + data.length)).sum
      % 256 = 0 := by
  have hlen := frame_body_length address command data
  have htake5 : (JW8507.make_command address command data).take
      (5 + data.length) = JW8507.frame_body address command data := by
    rw [JW8507.make_command]
    exact List.take_left' hlen
  have hgetD : (JW8507.make_command address command data).getD
      (5 + data.length) 0 =
      JW8507.calculate_checksum (JW8507.frame_body address command data) := by
    rw [JW8507.make_command, List.getD_append_right _ _ _ _ (by omega), hlen]
    simp
  have hsplit : JW8507.make_command address command data =
      (JW8507.frame_body address command data ++
        [JW8507.calculate_checksum (JW8507.frame_body address command data)])
      ++ [JW8507.FOOTER] := by
    rw [JW8507.make_command, List.append_assoc]
    rfl
  have htake6 : (JW8507.make_command address command data).take
      (6 + data.length) =
      JW8507.frame_body address command data ++
        [JW8507.calculate_checksum (JW8507.frame_body address command data)]
      := by
    rw [hsplit]
    exact List.take_left' (by rw [List.length_append, hlen]; simp; omega)
  refine ⟨by rw [hgetD, htake5], ?_⟩
  rw [htake6, List.sum_append]
  simp only [List.sum_cons, List.sum_nil, JW8507.calculate_checksum]
  generalize (JW8507.frame_body address command data).sum = t
  have hc0 : 0 ≤ (-(t : Int)) % 256 := Int.emod_nonneg _ (by norm_num)
  have hc1 : (-(t : Int)) % 256 < 256 := Int.emod_lt_of_pos _ (by norm_num)
  have hkey : ((-(t : Int)) % 256 + (t : Int)) % 256 = 0 := by
    rw [Int.emod_add_emod]
    simp
  omega

/-- Claim C1 witness: the checksum equation evaluated on the concrete frame
    for address 1, command 3 and the single data byte 171. -/
theorem make_command_checksum_ok_witness :
    (JW8507.make_command 1 3 [171]).getD 6 0 =
      JW8507.calculate_checksum ((JW8507.make_command 1 3 [171]).take 6) ∧
    ((JW8507.make_command 1 3 [171]).take 7).sum % 256 = 0 :=
  make_command_checksum_ok 1 3 [171] (by decide) (by decide) (by decide)
    (by decide)

/-- Claim C9. For every frame produced by make_command from data of at most
    200 bytes, the length field — the byte at offset 2 — equals
    5 + len(data). -/
theorem make_command_length_field (address : Int) (command : Nat)
    (data : List Nat) (h : data.length ≤ 200) :
    (JW8507.make_command address command data).getD 2 0 = 5 + data.length := by
  rw [JW8507.make_command,
    List.getD_append _ _ _ _ (by rw [frame_body_length]; omega),
    JW8507.frame_body, List.cons_append, List.cons_append, List.cons_append,
    List.getD_cons_succ, List.getD_cons_succ, List.getD_cons_zero,
    Nat.mod_eq_of_lt (by omega)]

/-- Claim C9 witness: the frame for two data bytes carries length byte 7. -/
theorem make_command_length_field_witness :
    (JW8507.make_command 1 3 [5, 6]).getD 2 0 = 5 + [5, 6].length :=
  make_command_length_field 1 3 [5, 6] (by decide)

/-- Bytes 3..4 slice of a response of length at least 5. -/
theorem drop3_take2 (resp : List Nat) (h : 5 ≤ resp.length) :
    (resp.drop 3).take 2 = [resp.getD 3 0, resp.getD 4 0] := by
  rcases resp with _ | ⟨a, _ | ⟨b, _ | ⟨c, _ | ⟨d, _ | ⟨e, t⟩⟩⟩⟩⟩ <;>
    simp_all [List.getD]

/-- Value of int.from_bytes on a two-byte big-endian slice. -/
theorem int_from_bytes_be_pair (x y : Nat) :
    int_from_bytes_be [x, y] = 256 * x + y := by
  simp [int_from_bytes_be]

/-- The shared response-acceptance test holds exactly when the response is
    long enough and its big-endian command field at bytes 3..4 echoes the
    request command + 1. -/
theorem respMatches_iff (resp : List Nat) (minLen command : Nat)
    (h5 : 5 ≤ minLen) :
    JW8507.respMatches resp minLen command = true ↔
      (minLen ≤ resp.length ∧ commandFieldBE resp = command + 1) := by
  by_cases hl : minLen ≤ resp.length
  · rw [JW8507.respMatches, drop3_take2 resp (h5.trans hl),
      int_from_bytes_be_pair]
    simp [hl, commandFieldBE]
  · simp [JW8507.respMatches, hl]

/-- Claim C3. Quantifying over every response byte sequence: read_version
    accepts its response exactly when the response has at least the expected
    10 bytes and the big-endian command field at bytes 3..4 equals the
    request command 0x0003 plus 1, and on any non-match or short read it
    returns a false flag with the empty payload; set_attenuation (for any
    attenuation whose hundredths count is encodable, so that the operation
    returns instead of raising) likewise accepts exactly when the response
    has at least 7 bytes and echoes 0x143C + 1, returning a boolean failure
    otherwise — neither operation raises on a mismatched or short response. -/
theorem response_match_iff (address : Int) (att : ℚ) (resp : List Nat)
    (h0 : 0 ≤ pyTrunc (att * 100)) (h1 : pyTrunc (att * 100) < 65536) :
    ((JW8507.read_version address resp).2.1 = true ↔
      (10 ≤ resp.length ∧ commandFieldBE resp = 0x0003 + 1)) ∧
    ((JW8507.read_version address resp).2.1 = false →
      (JW8507.read_version address resp).2.2 = none) ∧
    (∃ fr b, JW8507.set_attenuation address att resp = .ok (fr, b) ∧
      (b = true ↔ (7 ≤ resp.length ∧ commandFieldBE resp = 0x143C + 1))) := by
  refine ⟨?_, ?_, ?_⟩
  · simpa [JW8507.read_version] using respMatches_iff resp 10 0x0003 (by omega)
  · intro hfail
    have : JW8507.respMatches resp 10 0x0003 = false := by
      simpa [JW8507.read_version] using hfail
    simp [JW8507.read_version, this]
  · refine ⟨JW8507.make_command address 0x143C
      [(pyTrunc (att * 100)).toNat % 256,
       (pyTrunc (att * 100)).toNat / 256 % 256],
      JW8507.respMatches resp 7 0x143C, ?_, ?_⟩
    · rw [JW8507.set_attenuation]
      have : toBytesLE2 (pyTrunc (att * 100)) =
          .ok [(pyTrunc (att * 100)).toNat % 256,
               (pyTrunc (att * 100)).toNat / 256 % 256] := by
        rw [toBytesLE2, if_neg (by omega)]
      rw [this]
      rfl
    · exact respMatches_iff resp 7 0x143C (by omega)

/-- Claim C3 witness: a 10-byte response echoing command 4 is accepted by
    read_version, and set_attenuation at attenuation 10 on the same (for it
    too short, non-echoing) response returns a false flag without raising. -/
theorem response_match_iff_witness :
    ((JW8507.read_version 1 [123, 1, 10, 0, 4, 7, 8, 9, 0, 252]).2.1 = true ↔
      (10 ≤ [123, 1, 10, 0, 4, 7, 8, 9, 0, 252].length ∧
        commandFieldBE [123, 1, 10, 0, 4, 7, 8, 9, 0, 252] = 0x0003 + 1)) ∧
    ((JW8507.read_version 1 [123, 1, 10, 0, 4, 7, 8, 9, 0, 252]).2.1 = false →
      (JW8507.read_version 1 [123, 1, 10, 0, 4, 7, 8, 9, 0, 252]).2.2 = none) ∧
    (∃ fr b, JW8507.set_attenuation 1 10 [123, 1, 10, 0, 4, 7, 8, 9, 0, 252] =
        .ok (fr, b) ∧
      (b = true ↔ (7 ≤ [123, 1, 10, 0, 4, 7, 8, 9, 0, 252].length ∧
        commandFieldBE [123, 1, 10, 0, 4, 7, 8, 9, 0, 252] = 0x143C + 1))) :=
  response_match_iff 1 10 [123, 1, 10, 0, 4, 7, 8, 9, 0, 252]
    (by rw [show ((10 : ℚ) * 100) = ((1000 : Int) : ℚ) by norm_num,
      pyTrunc_intCast]; decide)
    (by rw [show ((10 : ℚ) * 100) = ((1000 : Int) : ℚ) by norm_num,
      pyTrunc_intCast]; decide)

/-- Claim C10. Calling JW8507.set_attenuation directly, bypassing the router
    range check: whenever int(attenuation * 100) is negative or exceeds
    65535, the unsigned two-byte conversion raises OverflowError out of the
    operation instead of the boolean failure the session convention uses;
    for encodable values the written frame carries exactly the two
    little-endian bytes of int(attenuation * 100), the attenuation truncated
    toward zero at two decimals. -/
theorem set_attenuation_direct_overflow (address : Int) (att : ℚ)
    (resp : List Nat) :
    ((pyTrunc (att * 100) < 0 ∨ 65535 < pyTrunc (att * 100)) →
      JW8507.set_attenuation address att resp = .error .overflowError) ∧
    (0 ≤ pyTrunc (att * 100) → pyTrunc (att * 100) ≤ 65535 →
      ∃ b, JW8507.set_attenuation address att resp =
        .ok (JW8507.make_command address 0x143C
          [(pyTrunc (att * 100)).toNat % 256,
           (pyTrunc (att * 100)).toNat / 256 % 256], b) ∧
        (pyTrunc (att * 100)).toNat % 256 +
          256 * ((pyTrunc (att * 100)).toNat / 256 % 256) =
          (pyTrunc (att * 100)).toNat) := by
  constructor
  · intro h
    have hb : toBytesLE2 (pyTrunc (att * 100)) = .error .overflowError := by
      rw [toBytesLE2, if_pos (by omega)]
    simp only [JW8507.set_attenuation, hb]
    rfl
  · intro h0 h1
    have hb : toBytesLE2 (pyTrunc (att * 100)) =
        .ok [(pyTrunc (att * 100)).toNat % 256,
             (pyTrunc (att * 100)).toNat / 256 % 256] := by
      rw [toBytesLE2, if_neg (by omega)]
    refine ⟨JW8507.respMatches resp 7 0x143C, ?_, by omega⟩
    simp only [JW8507.set_attenuation, hb]
    rfl

/-- Claim C10 witness: attenuation -0.01 and 700.0 raise OverflowError from
    the direct call; 12.34 encodes the two little-endian bytes of 1234. -/
theorem set_attenuation_direct_overflow_witness :
    JW8507.set_attenuation 1 (-1/100) [] = .error .overflowError ∧
    JW8507.set_attenuation 1 700 [] = .error .overflowError ∧
    (∃ b, JW8507.set_attenuation 1 (1234/100) [] =
      .ok (JW8507.make_command 1 0x143C
        [(pyTrunc ((1234/100 : ℚ) * 100)).toNat % 256,
         (pyTrunc ((1234/100 : ℚ) * 100)).toNat / 256 % 256], b) ∧
      (pyTrunc ((1234/100 : ℚ) * 100)).toNat % 256 +
        256 * ((pyTrunc ((1234/100 : ℚ) * 100)).toNat / 256 % 256) =
        (pyTrunc ((1234/100 : ℚ) * 100)).toNat) :=
  ⟨(set_attenuation_direct_overflow 1 (-1/100) []).1
    (Or.inl (by rw [show ((-1/100 : ℚ) * 100) = ((-1 : Int) : ℚ) by norm_num,
      pyTrunc_intCast]; decide)),
   (set_attenuation_direct_overflow 1 700 []).1
    (Or.inr (by rw [show ((700 : ℚ) * 100) = ((70000 : Int) : ℚ) by norm_num,
      pyTrunc_intCast]; decide)),
   (set_attenuation_direct_overflow 1 (1234/100) []).2
    (by rw [show ((1234/100 : ℚ) * 100) = ((1234 : Int) : ℚ) by norm_num,
      pyTrunc_intCast]; decide)
    (by rw [show ((1234/100 : ℚ) * 100) = ((1234 : Int) : ℚ) by norm_num,
      pyTrunc_intCast]; decide)⟩

/-- Claim C5. The router SetAttenuation helper fails with the Out of range
    envelope whenever CH < 1 or CH > channel_count, and — for in-range CH —
    whenever the attenuation lies outside [0, 60]; for in-range CH and
    attenuation in [0, 60] the request is forwarded to the device operation
    JW8507.set_attenuation and the written frame is the device operation
    frame. -/
theorem router_attenuation_bounds (env : RouterEnv) (ch : Int) (att : ℚ) :
    ((ch < 1 ∨ env.channel_count < ch) →
      MainWindow.set_attenuation env (.int ch) (.float att) =
        .ok (none, ⟨false, "", "Out of range"⟩)) ∧
    (1 ≤ ch → ch ≤ env.channel_count → (att < 0 ∨ 60 < att) →
      MainWindow.set_attenuation env (.int ch) (.float att) =
        .ok (none, ⟨false, "", "Out of range"⟩)) ∧
    (1 ≤ ch → ch ≤ env.channel_count → 0 ≤ att → att ≤ 60 →
      ∃ fr b, JW8507.set_attenuation ch att env.resp = .ok (fr, b) ∧
        MainWindow.set_attenuation env (.int ch) (.float att) =
          .ok (some fr,
            if b then ⟨true, "", "Attenuation set successfully"⟩
            else ⟨false, "", "Attenuation set failed"⟩)) := by
  refine ⟨?_, ?_, ?_⟩
  · intro h
    have hq : ((ch : ℚ) < 1 ∨ (env.channel_count : ℚ) < (ch : ℚ)) := by
      rcases h with h | h
      · exact Or.inl (by exact_mod_cast h)
      · exact Or.inr (by exact_mod_cast h)
    simp only [MainWindow.set_attenuation, Json.toQ, bind, Except.bind]
    rw [if_pos hq]
  · intro hc1 hc2 ha
    have hq : ¬((ch : ℚ) < 1 ∨ (env.channel_count : ℚ) < (ch : ℚ)) := by
      push_neg
      exact ⟨by exact_mod_cast hc1, by exact_mod_cast hc2⟩
    simp only [MainWindow.set_attenuation, Json.toQ, bind, Except.bind]
    rw [if_neg hq, if_pos ha]
  · intro hc1 hc2 ha0 ha1
    have hq : ¬((ch : ℚ) < 1 ∨ (env.channel_count : ℚ) < (ch : ℚ)) := by
      push_neg
      exact ⟨by exact_mod_cast hc1, by exact_mod_cast hc2⟩
    have ha : ¬(att < 0 ∨ 60 < att) := by
      push_neg
      exact ⟨ha0, ha1⟩
    obtain ⟨hv0, hv1⟩ := pyTrunc_att_bounds att ha0 ha1
    have hbytes : toBytesLE2 (pyTrunc (att * 100)) =
        .ok [(pyTrunc (att * 100)).toNat % 256,
             (pyTrunc (att * 100)).toNat / 256 % 256] := by
      rw [toBytesLE2, if_neg (by omega)]
    have hdev : JW8507.set_attenuation ch att env.resp =
        .ok (JW8507.make_command ch 0x143C
          [(pyTrunc (att * 100)).toNat % 256,
           (pyTrunc (att * 100)).toNat / 256 % 256],
          JW8507.respMatches env.resp 7 0x143C) := by
      simp only [JW8507.set_attenuation, hbytes]
      rfl
    refine ⟨_, _, hdev, ?_⟩
    simp only [MainWindow.set_attenuation, Json.toQ, Json.toZ, bind,
      Except.bind]
    rw [if_neg hq, if_neg ha]
    simp only [hdev, bind, Except.bind]
    cases hb : JW8507.respMatches env.resp 7 0x143C <;> simp [hb]

/-- Claim C5 witness: CH 0 fails, attenuation -0.01 and 60.01 fail with the
    Out of range envelope, and 0.0 and 60.0 (at CH 1 and CH 2, the
    configured channel_count) are forwarded to the device operation. -/
theorem router_attenuation_bounds_witness :
    MainWindow.set_attenuation env0 (.int 0) (.float 10) =
      .ok (none, ⟨false, "", "Out of range"⟩) ∧
    MainWindow.set_attenuation env0 (.int 1) (.float (-1/100)) =
      .ok (none, ⟨false, "", "Out of range"⟩) ∧
    MainWindow.set_attenuation env0 (.int 1) (.float (6001/100)) =
      .ok (none, ⟨false, "", "Out of range"⟩) ∧
    (∃ fr b, JW8507.set_attenuation 1 0 env0.resp = .ok (fr, b) ∧
      MainWindow.set_attenuation env0 (.int 1) (.float 0) =
        .ok (some fr,
          if b then ⟨true, "", "Attenuation set successfully"⟩
          else ⟨false, "", "Attenuation set failed"⟩)) ∧
    (∃ fr b, JW8507.set_attenuation 2 60 env0.resp = .ok (fr, b) ∧
      MainWindow.set_attenuation env0 (.int 2) (.float 60) =
        .ok (some fr,
          if b then ⟨true, "", "Attenuation set successfully"⟩
          else ⟨false, "", "Attenuation set failed"⟩)) :=
  ⟨(router_attenuation_bounds env0 0 10).1 (Or.inl (by decide)),
   (router_attenuation_bounds env0 1 (-1/100)).2.1 (by decide) (by decide)
     (Or.inl (by norm_num)),
   (router_attenuation_bounds env0 1 (6001/100)).2.1 (by decide) (by decide)
     (Or.inr (by norm_num)),
   (router_attenuation_bounds env0 1 0).2.2 (by decide) (by decide)
     (by norm_num) (by norm_num),
   (router_attenuation_bounds env0 2 60).2.2 (by decide) (by decide)
     (by norm_num) (by norm_num)⟩

/-- Membership under Python == agrees with list.index succeeding. -/
theorem any_eq_isSome_pyIndexOf (table : List Nat) (j : Json) :
    (table.any fun w => pyNumEq j w) = (pyIndexOf table j).isSome := by
  induction table with
  | nil => rfl
  | cons w ws ih =>
    by_cases h : pyNumEq j w <;> simp [pyIndexOf, h, ih]

/-- Claim C6. For every SetWavelength request with in-range CH: a wavelength
    absent from the current table fails with the Wavelength not in list
    envelope, and a wavelength present by exact value is forwarded — the
    request frame is the command 0x143A frame whose one-byte data payload is
    the wavelength's (first) index in the table. -/
theorem router_wavelength_validation (env : RouterEnv) (ch : Int) (wl : Json)
    (h1 : 1 ≤ ch) (h2 : ch ≤ env.channel_count) :
    (pyIndexOf env.waveLength_list wl = none →
      MainWindow.set_wavelength env (.int ch) wl =
        .ok (none, ⟨false, "", "Wavelength not in list"⟩)) ∧
    (∀ i, pyIndexOf env.waveLength_list wl = some i → i < 256 →
      MainWindow.set_wavelength env (.int ch) wl =
        .ok (some (JW8507.make_command ch 0x143A [i]),
          if JW8507.respMatches env.resp 7 0x143A then
            ⟨true, "", "Wavelength set successfully"⟩
          else ⟨false, "", "Wavelength set failed"⟩) ∧
      ((JW8507.make_command ch 0x143A [i]).drop 5).take 1 = [i]) := by
  have hq : ¬((ch : ℚ) < 1 ∨ (env.channel_count : ℚ) < (ch : ℚ)) := by
    push_neg
    exact ⟨by exact_mod_cast h1, by exact_mod_cast h2⟩
  constructor
  · intro hnone
    have hmem : (env.waveLength_list.any fun w => pyNumEq wl w) = false := by
      rw [any_eq_isSome_pyIndexOf, hnone]
      rfl
    simp only [MainWindow.set_wavelength, Json.toQ, bind, Except.bind]
    rw [if_neg hq]
    simp [hmem]
  · intro i hidx hi
    have hmem : (env.waveLength_list.any fun w => pyNumEq wl w) = true := by
      rw [any_eq_isSome_pyIndexOf, hidx]
      rfl
    have hb1 : toBytes1 i = .ok [i] := by
      rw [toBytes1, if_neg (by omega)]
    have hdev : JW8507.set_waveLength env.waveLength_list ch wl env.resp =
        .ok (some (JW8507.make_command ch 0x143A [i]),
             JW8507.respMatches env.resp 7 0x143A) := by
      simp only [JW8507.set_waveLength, hidx, hb1]
      rfl
    refine ⟨?_, ?_⟩
    · simp only [MainWindow.set_wavelength, Json.toQ, Json.toZ, bind,
        Except.bind]
      rw [if_neg hq]
      simp only [hmem, Bool.not_true, Bool.false_eq_true, if_false]
      simp only [hdev, bind, Except.bind]
      cases hbm : JW8507.respMatches env.resp 7 0x143A <;> simp [hbm]
    · simp [JW8507.make_command, JW8507.frame_body]

/-- Claim C6 witness: with the built-in table, wavelength 1111 is rejected
    with the Wavelength not in list envelope, and wavelength 1550 is
    forwarded with data payload equal to its table index 3. -/
theorem router_wavelength_validation_witness :
    MainWindow.set_wavelength env0 (.int 1) (.int 1111) =
      .ok (none, ⟨false, "", "Wavelength not in list"⟩) ∧
    (MainWindow.set_wavelength env0 (.int 1) (.int 1550) =
      .ok (some (JW8507.make_command 1 0x143A [3]),
        if JW8507.respMatches env0.resp 7 0x143A then
          ⟨true, "", "Wavelength set successfully"⟩
        else ⟨false, "", "Wavelength set failed"⟩) ∧
      ((JW8507.make_command 1 0x143A [3]).drop 5).take 1 = [3]) :=
  ⟨(router_wavelength_validation env0 1 (.int 1111) (by decide)
      (by decide)).1 (by decide),
   (router_wavelength_validation env0 1 (.int 1550) (by decide)
      (by decide)).2 3 (by decide) (by decide)⟩

/-- Claim C7. For every ConnectDevice request whose owning (main-thread)
    context has not completed the queued work when the bounded wait expires
    — connectWait = none — the router returns the failure envelope with
    IsSuccessful false and ErrorMessage Command execution timeout; the wait
    bound is the fixed 10 seconds of the source, and the owning-context
    handler still executes the queued connect work unconditionally when it
    eventually runs (there is no cancellation path), even after the router
    has cleared the result slots. -/
theorem connect_device_timeout (env : RouterEnv)
    (fields : List (String × Json)) (r : Envelope)
    (hw : env.connectWait = none)
    (hop : fields.lookup "opcode" = some (.str "ConnectDevice")) :
    MainWindow.handle_tcp_request env (some (.obj fields)) =
      .ok (none, ⟨false, "", "Command execution timeout"⟩) ∧
    (MainWindow.handle_tcp_connect_in_main_thread r ⟨none, false⟩).1 = true ∧
    MainWindow.TCP_RESULT_WAIT_SECONDS = 10 := by
  refine ⟨?_, rfl, rfl⟩
  have h1 : Json.getD (.obj fields) "opcode" (.str "") =
      .ok (.str "ConnectDevice") := by
    simp only [Json.getD, hop, Option.getD]
  simp only [MainWindow.handle_tcp_request, h1, bind, Except.bind,
    Json.eqStr, hw]
  rfl

/-- Claim C7 witness: the concrete timed-out ConnectDevice request. -/
theorem connect_device_timeout_witness :
    MainWindow.handle_tcp_request env0
      (some (.obj [("opcode", .str "ConnectDevice")])) =
      .ok (none, ⟨false, "", "Command execution timeout"⟩) ∧
    (MainWindow.handle_tcp_connect_in_main_thread
      ⟨true, "", "Connection successful"⟩ ⟨none, false⟩).1 = true ∧
    MainWindow.TCP_RESULT_WAIT_SECONDS = 10 :=
  connect_device_timeout env0 [("opcode", .str "ConnectDevice")]
    ⟨true, "", "Connection successful"⟩ rfl rfl

/-- Claim C4 counterexample. The router does let an exception escape to the
    TCP server layer: the valid-JSON request with opcode SetAttenuation
    whose parameter mapping lacks the CH key makes _handle_tcp_request raise
    KeyError CH (its try/except only covers json.loads) instead of returning
    a failure envelope. -/
theorem router_missing_key_escapes :
    MainWindow.handle_tcp_request env0
      (some (.obj [("opcode", .str "SetAttenuation"),
                   ("parameter", .obj [])])) =
      .error (.keyError "CH") := by
  rfl

/-- Claim C4 as amended. The router converts JSON-parse failures and
    recognized in-handler failures into envelopes, but a valid-JSON
    SetAttenuation request whose parameter mapping lacks the CH key raises
    KeyError out of the router; the TCP server connection handler catches
    the escaping exception, answers with an IsSuccessful false envelope
    carrying the exception text, and then tears the connection down. -/
theorem router_keyerror_handled_by_server (env : RouterEnv)
    (fields : List (String × Json)) (h : fields.lookup "CH" = none) :
    MainWindow.handle_tcp_request env
      (some (.obj [("opcode", .str "SetAttenuation"),
                   ("parameter", .obj fields)])) =
      .error (.keyError "CH") ∧
    TCPServer.handle_message env
      (some (.obj [("opcode", .str "SetAttenuation"),
                   ("parameter", .obj fields)])) =
      (⟨false, "", "CH"⟩, true) := by
  have h1 : MainWindow.handle_tcp_request env
      (some (.obj [("opcode", .str "SetAttenuation"),
                   ("parameter", .obj fields)])) =
      .error (.keyError "CH") := by
    simp [MainWindow.handle_tcp_request, Json.getD, Json.item, Json.eqStr,
      List.lookup, h, bind, Except.bind]
  exact ⟨h1, by simp only [TCPServer.handle_message, h1, pyErrMessage]⟩

/-- Claim C4 witness for the amended statement: the empty parameter
    mapping. -/
theorem router_keyerror_handled_by_server_witness :
    MainWindow.handle_tcp_request env0
      (some (.obj [("opcode", .str "SetAttenuation"),
                   ("parameter", .obj [])])) =
      .error (.keyError "CH") ∧
    TCPServer.handle_message env0
      (some (.obj [("opcode", .str "SetAttenuation"),
                   ("parameter", .obj [])])) =
      (⟨false, "", "CH"⟩, true) :=
  router_keyerror_handled_by_server env0 [] rfl

/-- Claim C8 counterexample. A valid-JSON object lacking an opcode field does
    not produce the distinct malformed-command failure the claim requires:
    it falls through to the generic Unknown command envelope, which differs
    from the Invalid JSON command envelope produced for unparseable
    payloads. -/
theorem missing_opcode_yields_unknown :
    MainWindow.handle_tcp_request env0 (some (.obj [])) =
      .ok (none, ⟨false, "", "Unknown command"⟩) ∧
    MainWindow.handle_tcp_request env0 none =
      .ok (none, ⟨false, "", "Invalid JSON command"⟩) ∧
    "Unknown command" ≠ "Invalid JSON command" :=
  ⟨rfl, rfl, by decide⟩

/-- Claim C8 as amended. A payload that is not valid JSON fails with the
    malformed-command envelope Invalid JSON command; a valid-JSON object
    lacking an opcode field instead falls through to the generic Unknown
    command failure (the missing key defaults to the empty opcode string,
    which matches no dispatch branch). -/
theorem malformed_and_missing_opcode (env : RouterEnv)
    (fields : List (String × Json)) (h : fields.lookup "opcode" = none) :
    MainWindow.handle_tcp_request env none =
      .ok (none, ⟨false, "", "Invalid JSON command"⟩) ∧
    MainWindow.handle_tcp_request env (some (.obj fields)) =
      .ok (none, ⟨false, "", "Unknown command"⟩) := by
  refine ⟨rfl, ?_⟩
  simp only [MainWindow.handle_tcp_request, Json.getD, h, Option.getD, bind,
    Except.bind, Json.eqStr]
  rfl

/-- Claim C8 witness for the amended statement: a parameter-only object. -/
theorem malformed_and_missing_opcode_witness :
    MainWindow.handle_tcp_request env0 none =
      .ok (none, ⟨false, "", "Invalid JSON command"⟩) ∧
    MainWindow.handle_tcp_request env0
      (some (.obj [("parameter", .obj [])])) =
      .ok (none, ⟨false, "", "Unknown command"⟩) :=
  malformed_and_missing_opcode env0 [("parameter", .obj [])] rfl
